import Mathlib

/-
Verification of the staged-entry court-data workflow:
shallow embedding of src/validators.py and src/server.py.

Numeric model: every metric parameter of the tool functions in
src/server.py is declared `float`, so the program computes in IEEE-754
binary64 (double) arithmetic. A finite double is an exact rational, so
values are embedded as the exact rational value of the double (ℚ), and
each addition or subtraction the program performs is modeled by `flAdd`
and `flSub`, which round the exact result back to the binary64 grid with
round-to-nearest, ties-to-even (`roundNearestEven`). Comparisons between
doubles are exact comparisons of their rational values and need no
rounding. The rounding model covers the whole binary64 normal range
(see the doc comment of `roundNearestEven`); subnormal underflow and
overflow to infinity are outside the modeled range.
-/

namespace CourtData

set_option maxRecDepth 8000

/-- Fuel-driven base-2 logarithm on naturals, written with structural
recursion on the fuel so that kernel evaluation (`decide`) works.
For 2 ≤ n it returns `log2F f (n / 2) + 1` while fuel lasts. -/
def log2F : Nat → Nat → Nat
  | 0, _ => 0
  | f + 1, n => if n ≤ 1 then 0 else log2F f (n / 2) + 1

/-- Floor of the base-2 logarithm, exact for every n below 2 ^ 4200
(the fuel bound), which covers the numerator and denominator of every
binary64 value and of every exact sum or difference of two of them. -/
def natLog2 (n : Nat) : Nat := log2F 4200 n

/-- The rational 2 ^ t for an integer t, via kernel-friendly natural
powers. -/
def pow2Z (t : ℤ) : ℚ :=
  match t with
  | .ofNat n => ((2 ^ n : ℕ) : ℚ)
  | .negSucc n => 1 / ((2 ^ (n + 1) : ℕ) : ℚ)

/-- For a positive rational, the integer e with 2 ^ e ≤ a < 2 ^ (e + 1)
(exact within the `natLog2` fuel range). -/
def ratExp2 (a : ℚ) : ℤ :=
  let t : ℤ := (natLog2 a.num.natAbs : ℤ) - (natLog2 a.den : ℤ)
  if pow2Z t ≤ a then t else t - 1

/-- Round a rational to the IEEE-754 binary64 grid: round to nearest
with 53 significant bits, ties to even. This coincides with double
rounding for every result in the binary64 normal range (magnitude in
[2 ^ (-1022), 2 ^ 1024)) and for zero; subnormal underflow and overflow
to infinity are outside the modeled range, as is every rational whose
numerator or denominator reaches 2 ^ 4200 (cf. `natLog2`) — none of
which arise from sums or differences of normal-range doubles. Checked
against CPython double arithmetic on the concrete values used below. -/
def roundNearestEven (q : ℚ) : ℚ :=
  if q = 0 then 0
  else
    let a : ℚ := if q < 0 then -q else q
    let e : ℤ := ratExp2 a
    let ulp : ℚ := pow2Z (e - 52)
    let m : ℚ := a / ulp
    let mfl : ℤ := m.num / (m.den : ℤ)
    let frac : ℚ := m - (mfl : ℚ)
    let mr : ℤ :=
      if frac < 1 / 2 then mfl
      else if 1 / 2 < frac then mfl + 1
      else if mfl % 2 = 0 then mfl else mfl + 1
    (if q < 0 then -1 else 1) * (mr : ℚ) * ulp

/-- Binary64 addition: exact rational sum, rounded. -/
def flAdd (x y : ℚ) : ℚ := roundNearestEven (x + y)

/-- Binary64 subtraction: exact rational difference, rounded. -/
def flSub (x y : ℚ) : ℚ := roundNearestEven (x - y)

deriving instance DecidableEq for Except

/-- Typed embedding of the exception kinds raised by the validators
(the source raises `ValidationError` with a message; each constructor
here corresponds to one `raise` site and carries the data interpolated
into that message). `sumMismatch` names the category/side label and both
sides of the failed equality; `subsetViolation` names the offending field
together with its value and its bound. -/
inductive VErr where
  | rangeErrorMonth (month : Int)
  | rangeErrorYear (year : Int)
  | invariantViolation
  | sumMismatch (label : String) (bucketSum target : ℚ)
  | subsetViolation (field : String) (value bound : ℚ)
  deriving Repr, DecidableEq

/-- Record returned by `validate_basic_metrics` (the keys of the Python
result dict, in source order). -/
structure BasicMetrics where
  balance_rape : ℚ
  balance_pocso : ℚ
  balance_total : ℚ
  new_rape : ℚ
  new_pocso : ℚ
  new_total : ℚ
  disposed_rape : ℚ
  disposed_pocso : ℚ
  disposed_total : ℚ
  pending_rape : ℚ
  pending_pocso : ℚ
  pending_total : ℚ
  deriving Repr, DecidableEq

/-- Embedding of `validators.validate_basic_metrics` (src/validators.py,
lines 10-43): computes pending per category and the four totals in the
binary64 arithmetic of the program (each Python `+`/`-` on floats is one
rounded operation, left associated), re-checks the pending identity, and
returns the record. -/
def validate_basic_metrics (balance_rape balance_pocso new_rape new_pocso
    disposed_rape disposed_pocso : ℚ) : Except VErr BasicMetrics :=
  let pending_rape := flSub (flAdd balance_rape new_rape) disposed_rape
  let pending_pocso := flSub (flAdd balance_pocso new_pocso) disposed_pocso
  let balance_total := flAdd balance_rape balance_pocso
  let new_total := flAdd new_rape new_pocso
  let disposed_total := flAdd disposed_rape disposed_pocso
  let pending_total := flAdd pending_rape pending_pocso
  if pending_total ≠ flSub (flAdd balance_total new_total) disposed_total then
    .error .invariantViolation
  else
    .ok {
      balance_rape := balance_rape
      balance_pocso := balance_pocso
      balance_total := balance_total
      new_rape := new_rape
      new_pocso := new_pocso
      new_total := new_total
      disposed_rape := disposed_rape
      disposed_pocso := disposed_pocso
      disposed_total := disposed_total
      pending_rape := pending_rape
      pending_pocso := pending_pocso
      pending_total := pending_total
    }

/-- Record returned by `validate_age_breakdowns` (the keys of the Python
result dict). -/
structure AgeBreakdown where
  pending_less_2m_rape : ℚ
  pending_less_2m_pocso : ℚ
  pending_2_12m_rape : ℚ
  pending_2_12m_pocso : ℚ
  pending_12m_5y_rape : ℚ
  pending_12m_5y_pocso : ℚ
  pending_beyond_5y_rape : ℚ
  pending_beyond_5y_pocso : ℚ
  total_pendency_rape : ℚ
  total_pendency_pocso : ℚ
  disposal_within_2m_rape : ℚ
  disposal_within_2m_pocso : ℚ
  disposal_2_12m_rape : ℚ
  disposal_2_12m_pocso : ℚ
  disposal_beyond_12m_rape : ℚ
  disposal_beyond_12m_pocso : ℚ
  total_disposal_rape : ℚ
  total_disposal_pocso : ℚ
  deriving Repr, DecidableEq

/-- Embedding of `validators.validate_age_breakdowns` (src/validators.py,
lines 46-115): the bucket sums are computed in the binary64 arithmetic of
the program (left-associated rounded additions); the four equality checks
(exact comparisons of doubles) run in source order (RAPE pendency, POCSO
pendency, RAPE disposal, POCSO disposal) and the first failing one
raises. -/
def validate_age_breakdowns (pending_rape pending_pocso disposed_rape disposed_pocso
    pending_less_2m_rape pending_less_2m_pocso
    pending_2_12m_rape pending_2_12m_pocso
    pending_12m_5y_rape pending_12m_5y_pocso
    pending_beyond_5y_rape pending_beyond_5y_pocso
    disposal_within_2m_rape disposal_within_2m_pocso
    disposal_2_12m_rape disposal_2_12m_pocso
    disposal_beyond_12m_rape disposal_beyond_12m_pocso : ℚ) :
    Except VErr AgeBreakdown :=
  let total_pendency_rape := flAdd (flAdd (flAdd pending_less_2m_rape
    pending_2_12m_rape) pending_12m_5y_rape) pending_beyond_5y_rape
  let total_pendency_pocso := flAdd (flAdd (flAdd pending_less_2m_pocso
    pending_2_12m_pocso) pending_12m_5y_pocso) pending_beyond_5y_pocso
  if total_pendency_rape ≠ pending_rape then
    .error (.sumMismatch "RAPE pendency" total_pendency_rape pending_rape)
  else if total_pendency_pocso ≠ pending_pocso then
    .error (.sumMismatch "POCSO pendency" total_pendency_pocso pending_pocso)
  else
    let total_disposal_rape := flAdd (flAdd disposal_within_2m_rape
      disposal_2_12m_rape) disposal_beyond_12m_rape
    let total_disposal_pocso := flAdd (flAdd disposal_within_2m_pocso
      disposal_2_12m_pocso) disposal_beyond_12m_pocso
    if total_disposal_rape ≠ disposed_rape then
      .error (.sumMismatch "RAPE disposal" total_disposal_rape disposed_rape)
    else if total_disposal_pocso ≠ disposed_pocso then
      .error (.sumMismatch "POCSO disposal" total_disposal_pocso disposed_pocso)
    else
      .ok {
        pending_less_2m_rape := pending_less_2m_rape
        pending_less_2m_pocso := pending_less_2m_pocso
        pending_2_12m_rape := pending_2_12m_rape
        pending_2_12m_pocso := pending_2_12m_pocso
        pending_12m_5y_rape := pending_12m_5y_rape
        pending_12m_5y_pocso := pending_12m_5y_pocso
        pending_beyond_5y_rape := pending_beyond_5y_rape
        pending_beyond_5y_pocso := pending_beyond_5y_pocso
        total_pendency_rape := total_pendency_rape
        total_pendency_pocso := total_pendency_pocso
        disposal_within_2m_rape := disposal_within_2m_rape
        disposal_within_2m_pocso := disposal_within_2m_pocso
        disposal_2_12m_rape := disposal_2_12m_rape
        disposal_2_12m_pocso := disposal_2_12m_pocso
        disposal_beyond_12m_rape := disposal_beyond_12m_rape
        disposal_beyond_12m_pocso := disposal_beyond_12m_pocso
        total_disposal_rape := total_disposal_rape
        total_disposal_pocso := total_disposal_pocso
      }

/-- Record returned by `validate_additional_metrics` (the keys of the
Python result dict). -/
structure AdditionalMetrics where
  contested_rape : ℚ
  contested_pocso : ℚ
  contested_total : ℚ
  disposal_5y_rape : ℚ
  disposal_5y_pocso : ℚ
  disposal_5y_total : ℚ
  pending_over_5y_rape : ℚ
  pending_over_5y_pocso : ℚ
  pending_over_5y_total : ℚ
  convictions_rape : ℚ
  convictions_pocso : ℚ
  deriving Repr, DecidableEq

/-- Embedding of `validators.validate_additional_metrics`
(src/validators.py, lines 118-183): six subset checks in source order,
then the three totals. -/
def validate_additional_metrics (pending_rape pending_pocso disposed_rape disposed_pocso
    contested_rape contested_pocso
    disposal_5y_rape disposal_5y_pocso
    pending_over_5y_rape pending_over_5y_pocso
    convictions_rape convictions_pocso : ℚ) : Except VErr AdditionalMetrics :=
  if contested_rape > disposed_rape then
    .error (.subsetViolation "contested_rape" contested_rape disposed_rape)
  else if contested_pocso > disposed_pocso then
    .error (.subsetViolation "contested_pocso" contested_pocso disposed_pocso)
  else if disposal_5y_rape > disposed_rape then
    .error (.subsetViolation "disposal_5y_rape" disposal_5y_rape disposed_rape)
  else if disposal_5y_pocso > disposed_pocso then
    .error (.subsetViolation "disposal_5y_pocso" disposal_5y_pocso disposed_pocso)
  else if pending_over_5y_rape > pending_rape then
    .error (.subsetViolation "pending_over_5y_rape" pending_over_5y_rape pending_rape)
  else if pending_over_5y_pocso > pending_pocso then
    .error (.subsetViolation "pending_over_5y_pocso" pending_over_5y_pocso pending_pocso)
  else
    .ok {
      contested_rape := contested_rape
      contested_pocso := contested_pocso
      contested_total := contested_rape + contested_pocso
      disposal_5y_rape := disposal_5y_rape
      disposal_5y_pocso := disposal_5y_pocso
      disposal_5y_total := disposal_5y_rape + disposal_5y_pocso
      pending_over_5y_rape := pending_over_5y_rape
      pending_over_5y_pocso := pending_over_5y_pocso
      pending_over_5y_total := pending_over_5y_rape + pending_over_5y_pocso
      convictions_rape := convictions_rape
      convictions_pocso := convictions_pocso
    }

/-- Embedding of `validators.validate_month_year` (src/validators.py,
lines 186-194). -/
def validate_month_year (month year : Int) : Except VErr Unit :=
  if ¬ (1 ≤ month ∧ month ≤ 12) then
    .error (.rangeErrorMonth month)
  else if ¬ (2020 ≤ year ∧ year ≤ 2030) then
    .error (.rangeErrorYear year)
  else
    .ok ()

/-- Court entity as returned by `db.get_court_by_name` (id, name, type,
district name; only id and name matter to the workflow, the rest is
presentation). -/
structure Court where
  id : Int
  name : String
  ctype : String
  deriving Repr, DecidableEq

/-- Workflow key: the Python store key is the string
`f"{court_id}_{month}_{year}"`; over integer components that string is in
bijection with the triple, so the embedding keys by the triple directly. -/
structure Key where
  courtId : Int
  month : Int
  year : Int
  deriving Repr, DecidableEq

/-- One entry of `partial_data_store`: the Python dict accumulated across
the three steps.  Step 1 writes the court/period fields, the basic
metrics and `step1_complete` (no step-2 data yet, so `age := none` and
`step2_complete := false`, matching `dict.get` returning a falsy `None`);
step 2 merges the age data and sets `step2_complete`. -/
structure PartialRecord where
  court_id : Int
  court_name : String
  month : Int
  year : Int
  basic : BasicMetrics
  age : Option AgeBreakdown
  step1_complete : Bool
  step2_complete : Bool
  deriving Repr, DecidableEq

/-- Observable state of the server: the in-memory `partial_data_store`
(src/server.py, line 25) and, for the durable side, the set of committed
keys visible through `check_existing_data` / written by
`insert_court_monthly_data`. -/
structure WorldState where
  store : Key → Option PartialRecord
  records : Key → Bool

/-- Outcome of one workflow step, classifying each `return` site of the
three tool functions in src/server.py by the error taxonomy of the spec.
`ok1`/`ok2`/`ok3` are the success payloads; `entityNotFound` is the
"Court not found" return; `duplicateEntry` the "Data already exists"
return; `stepOrderViolation n` the "You must complete STEP n first"
returns; `validationFailure` the `except ValidationError` handler; and
`storageFailure` the generic handler catching a failed durable insert. -/
inductive StepResult where
  | ok1 (calcd : BasicMetrics)
  | ok2 (age : AgeBreakdown)
  | ok3 (complete : PartialRecord) (additional : AdditionalMetrics)
  | entityNotFound (court_name : String)
  | duplicateEntry
  | stepOrderViolation (missingStep : Nat)
  | validationFailure (e : VErr)
  | storageFailure
  deriving Repr, DecidableEq

/-- Does the step result signal an arithmetic-validator failure or a
state-machine (step-order) failure?  These are exactly the recoverable
failures the all-or-nothing property of the spec is about. -/
def StepResult.isValidatorOrOrderFailure : StepResult → Bool
  | .validationFailure _ => true
  | .stepOrderViolation _ => true
  | _ => false

/-- Does the step result signal a period-bounds failure (the `RangeError`
of the spec taxonomy, raised only by `validate_month_year`)? -/
def StepResult.isRangeError : StepResult → Bool
  | .validationFailure (.rangeErrorMonth _) => true
  | .validationFailure (.rangeErrorYear _) => true
  | _ => false

/-- Embedding of `server.insert_step1_basic_metrics` (src/server.py,
lines 126-197): validate the period, resolve the court, reject a
pre-existing committed record, run the basic-metrics validator, then
store the partial record (overwriting any previous entry at the key)
with `step1_complete` set.  The court directory (`get_court_by_name`) is
passed in as a lookup function; `w` carries the mutable state.  Every
failure path returns `w` unchanged, exactly as the source returns before
reaching the store assignment. -/
def insert_step1_basic_metrics (courts : String → Option Court) (w : WorldState)
    (court_name : String) (month year : Int)
    (balance_rape balance_pocso new_rape new_pocso disposed_rape disposed_pocso : ℚ) :
    WorldState × StepResult :=
  match validate_month_year month year with
  | .error e => (w, .validationFailure e)
  | .ok _ =>
    match courts court_name with
    | none => (w, .entityNotFound court_name)
    | some court =>
      let key : Key := ⟨court.id, month, year⟩
      if w.records key then
        (w, .duplicateEntry)
      else
        match validate_basic_metrics balance_rape balance_pocso new_rape new_pocso
            disposed_rape disposed_pocso with
        | .error e => (w, .validationFailure e)
        | .ok calcd =>
          ({ w with store := fun k => if k = key then
                some { court_id := court.id, court_name := court_name,
                       month := month, year := year, basic := calcd, age := none,
                       step1_complete := true, step2_complete := false }
              else w.store k },
           .ok1 calcd)

/-- Embedding of `server.insert_step2_age_breakdowns` (src/server.py,
lines 201-287): resolve the court, require a partial record with
`step1_complete`, run the age-breakdown validator against the stored
step-1 pending/disposed values, then merge the age data and set
`step2_complete`.  Every failure path returns `w` unchanged. -/
def insert_step2_age_breakdowns (courts : String → Option Court) (w : WorldState)
    (court_name : String) (month year : Int)
    (pending_less_2m_rape pending_less_2m_pocso
     pending_2_12m_rape pending_2_12m_pocso
     pending_12m_5y_rape pending_12m_5y_pocso
     pending_beyond_5y_rape pending_beyond_5y_pocso
     disposal_within_2m_rape disposal_within_2m_pocso
     disposal_2_12m_rape disposal_2_12m_pocso
     disposal_beyond_12m_rape disposal_beyond_12m_pocso : ℚ) :
    WorldState × StepResult :=
  match courts court_name with
  | none => (w, .entityNotFound court_name)
  | some court =>
    let key : Key := ⟨court.id, month, year⟩
    match w.store key with
    | none => (w, .stepOrderViolation 1)
    | some pd =>
      if ¬ pd.step1_complete then
        (w, .stepOrderViolation 1)
      else
        match validate_age_breakdowns pd.basic.pending_rape pd.basic.pending_pocso
            pd.basic.disposed_rape pd.basic.disposed_pocso
            pending_less_2m_rape pending_less_2m_pocso
            pending_2_12m_rape pending_2_12m_pocso
            pending_12m_5y_rape pending_12m_5y_pocso
            pending_beyond_5y_rape pending_beyond_5y_pocso
            disposal_within_2m_rape disposal_within_2m_pocso
            disposal_2_12m_rape disposal_2_12m_pocso
            disposal_beyond_12m_rape disposal_beyond_12m_pocso with
        | .error e => (w, .validationFailure e)
        | .ok age_data =>
          ({ w with store := fun k => if k = key then
                some { pd with age := some age_data, step2_complete := true }
              else w.store k },
           .ok2 age_data)

/-- Embedding of `server.insert_step3_additional_metrics` (src/server.py,
lines 291-377): resolve the court, require a partial record (step 1) with
`step2_complete` (step 2), run the additional-metrics validator against
the stored step-1 values, then attempt the durable insert
(`insert_court_monthly_data`) and, only after it succeeds, delete the
partial record.  The boolean `insertFails` is the oracle for whether the
durable insert raises (the `StorageFailure` passthrough of the spec): when
it raises, control jumps to the exception handler before the `del`, so
the state is returned unchanged. -/
def insert_step3_additional_metrics (courts : String → Option Court)
    (insertFails : Bool) (w : WorldState)
    (court_name : String) (month year : Int)
    (contested_rape contested_pocso
     disposal_5y_rape disposal_5y_pocso
     pending_over_5y_rape pending_over_5y_pocso
     convictions_rape convictions_pocso : ℚ) :
    WorldState × StepResult :=
  match courts court_name with
  | none => (w, .entityNotFound court_name)
  | some court =>
    let key : Key := ⟨court.id, month, year⟩
    match w.store key with
    | none => (w, .stepOrderViolation 1)
    | some pd =>
      if ¬ pd.step2_complete then
        (w, .stepOrderViolation 2)
      else
        match validate_additional_metrics pd.basic.pending_rape pd.basic.pending_pocso
            pd.basic.disposed_rape pd.basic.disposed_pocso
            contested_rape contested_pocso
            disposal_5y_rape disposal_5y_pocso
            pending_over_5y_rape pending_over_5y_pocso
            convictions_rape convictions_pocso with
        | .error e => (w, .validationFailure e)
        | .ok additional =>
          if insertFails then
            (w, .storageFailure)
          else
            ({ store := fun k => if k = key then none else w.store k,
               records := fun k => if k = key then true else w.records k },
             .ok3 pd additional)

/-- Concrete court fixture used by the closed examples below. -/
def exCourt : Court := { id := 7, name := "FTSC Attingal", ctype := "FTSC" }

/-- Concrete court directory with a single court. -/
def exCourts : String → Option Court :=
  fun n => if n = "FTSC Attingal" then some exCourt else none

/-- Key of the fixture court for period 1/2025. -/
def exKey : Key := { courtId := 7, month := 1, year := 2025 }

/-- All-zero basic metrics record (a valid output of
`validate_basic_metrics 0 0 0 0 0 0`). -/
def zeroBasic : BasicMetrics := ⟨0, 0, 0, 0, 0, 0, 0, 0, 0, 0, 0, 0⟩

/-- Fixture entry of the store: both steps completed for `exKey`. -/
def exEntry : PartialRecord :=
  { court_id := 7, court_name := "FTSC Attingal", month := 1, year := 2025,
    basic := zeroBasic, age := none, step1_complete := true, step2_complete := true }

/-- World with an empty store and no committed records. -/
def exWorldEmpty : WorldState :=
  { store := fun _ => none, records := fun _ => false }

/-- World in which `exKey` has both a committed record and a leftover
in-memory entry (reachable when a concurrent workflow for the same key
commits between the duplicate check and the store write of another caller). -/
def exWorldDup : WorldState :=
  { store := fun k => if k = exKey then some exEntry else none,
    records := fun k => decide (k = exKey) }

/-- World in which `exKey` has a fully advanced in-memory entry and no
committed record (the state right before step 3). -/
def exWorldReady : WorldState :=
  { store := fun k => if k = exKey then some exEntry else none,
    records := fun _ => false }

/-- Fixture output of `validate_additional_metrics` on all-zero inputs. -/
def zeroAdditional : AdditionalMetrics := ⟨0, 0, 0, 0, 0, 0, 0, 0, 0, 0, 0⟩

/-- Helper: when the rounded self-check identity holds,
`validate_basic_metrics` takes its success branch and returns the
explicit record of float-computed values. -/
theorem vbm_ok (br bp nr np dr dp : ℚ)
    (h : flAdd (flSub (flAdd br nr) dr) (flSub (flAdd bp np) dp) =
      flSub (flAdd (flAdd br bp) (flAdd nr np)) (flAdd dr dp)) :
    validate_basic_metrics br bp nr np dr dp =
      Except.ok ⟨br, bp, flAdd br bp, nr, np, flAdd nr np, dr, dp, flAdd dr dp,
        flSub (flAdd br nr) dr, flSub (flAdd bp np) dp,
        flAdd (flSub (flAdd br nr) dr) (flSub (flAdd bp np) dp)⟩ := by
  simp only [validate_basic_metrics]
  rw [if_neg (not_ne_iff.mpr h)]

unseal Rat.add Rat.mul Rat.inv Rat.sub in
/-- C1: the claimed universal success fails on the program: at the
non-negative input (0.3, 0.2, 0.1, 0, 0, 0) — each literal standing for
its binary64 value — the double-rounded pending total is
0.6000000000000001 (the double above 0.6) while the double-rounded
balance total + new total - disposed total is 0.6, so the validator
raises the invariant failure instead of succeeding. -/
theorem basic_metrics_nonneg_failure :
    0 ≤ roundNearestEven (3 / 10) ∧ 0 ≤ roundNearestEven (1 / 5) ∧
    0 ≤ roundNearestEven (1 / 10) ∧
    validate_basic_metrics (roundNearestEven (3 / 10)) (roundNearestEven (1 / 5))
      (roundNearestEven (1 / 10)) 0 0 0 =
      Except.error VErr.invariantViolation := by
  refine ⟨by decide, by decide, by decide, by decide⟩

unseal Rat.add Rat.mul Rat.inv Rat.sub in
/-- C8: the `InvariantViolation` self-check branch of
`validate_basic_metrics` is reachable, not dead code: at the input
(0.2, 0.3, 0, 0.1, 0, 0) (binary64 values of the literals) the two
differently associated double sums disagree — (0.2 + 0.4 gives
0.6000000000000001, 0.5 + 0.1 gives 0.6) — and the branch fires. -/
theorem invariant_violation_reachable :
    validate_basic_metrics (roundNearestEven (1 / 5)) (roundNearestEven (3 / 10)) 0
      (roundNearestEven (1 / 10)) 0 0 =
      Except.error VErr.invariantViolation := by
  decide

unseal Rat.add Rat.mul Rat.inv Rat.sub in
/-- C9 counterexample: non-negative inputs (0.3, 0.2, 0.1, 0, 0.9, 0)
with disposed exceeding balance + new in the RAPE category on which the
program raises the invariant self-check (the two double association
orders disagree) instead of succeeding with a negative pending —
refuting the claimed universal success. -/
theorem negative_pending_cex :
    roundNearestEven (3 / 10) + roundNearestEven (1 / 10) < roundNearestEven (9 / 10) ∧
    0 ≤ roundNearestEven (3 / 10) ∧ 0 ≤ roundNearestEven (1 / 5) ∧
    0 ≤ roundNearestEven (1 / 10) ∧ 0 ≤ roundNearestEven (9 / 10) ∧
    validate_basic_metrics (roundNearestEven (3 / 10)) (roundNearestEven (1 / 5))
      (roundNearestEven (1 / 10)) 0 (roundNearestEven (9 / 10)) 0 =
      Except.error VErr.invariantViolation := by
  refine ⟨by decide, by decide, by decide, by decide, by decide, by decide⟩

/-- C9 (amended): `validate_basic_metrics` imposes no non-negativity
condition on the derived pending values: whenever the rounded self-check
identity holds and the computed pending of the first category is negative
(disposed exceeding the rounded balance + new), the function succeeds and
returns that negative pending, with the pending total the rounded sum of
the two per-category values — a failure can only come from the
self-check, never from negativity. -/
theorem negative_pending_allowed (br bp nr np dr dp : ℚ)
    (hbr : 0 ≤ br) (hbp : 0 ≤ bp) (hnr : 0 ≤ nr)
    (hnp : 0 ≤ np) (hdr : 0 ≤ dr) (hdp : 0 ≤ dp)
    (hchk : flAdd (flSub (flAdd br nr) dr) (flSub (flAdd bp np) dp) =
      flSub (flAdd (flAdd br bp) (flAdd nr np)) (flAdd dr dp))
    (hneg : flSub (flAdd br nr) dr < 0) :
    ∃ r, validate_basic_metrics br bp nr np dr dp = Except.ok r ∧
      r.pending_rape < 0 ∧
      r.pending_total = flAdd r.pending_rape r.pending_pocso :=
  ⟨_, vbm_ok br bp nr np dr dp hchk, hneg, rfl⟩

unseal Rat.add Rat.mul Rat.inv Rat.sub in
/-- Closed instance of `negative_pending_allowed` at inputs
(balance 1, new 0, disposed 5 for RAPE; all-zero POCSO), where the
double arithmetic is exact. -/
theorem negative_pending_allowed_witness :
    ∃ r, validate_basic_metrics 1 0 0 0 5 0 = Except.ok r ∧
      r.pending_rape < 0 ∧
      r.pending_total = flAdd r.pending_rape r.pending_pocso :=
  negative_pending_allowed 1 0 0 0 5 0 (by norm_num) (by norm_num) (by norm_num)
    (by norm_num) (by norm_num) (by norm_num) (by decide) (by decide)

/-- Helper: success branch of `validate_age_breakdowns` when all four
bucket sums match. -/
theorem vab_ok (pr pp dr dp u1 v1 u2 v2 u3 v3 u4 v4 x1 y1 x2 y2 x3 y3 : ℚ)
    (h1 : flAdd (flAdd (flAdd u1 u2) u3) u4 = pr) (h2 : flAdd (flAdd (flAdd v1 v2) v3) v4 = pp)
    (h3 : flAdd (flAdd x1 x2) x3 = dr) (h4 : flAdd (flAdd y1 y2) y3 = dp) :
    validate_age_breakdowns pr pp dr dp u1 v1 u2 v2 u3 v3 u4 v4 x1 y1 x2 y2 x3 y3 =
      Except.ok ⟨u1, v1, u2, v2, u3, v3, u4, v4, flAdd (flAdd (flAdd u1 u2) u3) u4, flAdd (flAdd (flAdd v1 v2) v3) v4,
        x1, y1, x2, y2, x3, y3, flAdd (flAdd x1 x2) x3, flAdd (flAdd y1 y2) y3⟩ := by
  simp only [validate_age_breakdowns]
  rw [if_neg (not_ne_iff.mpr h1), if_neg (not_ne_iff.mpr h2),
    if_neg (not_ne_iff.mpr h3), if_neg (not_ne_iff.mpr h4)]

/-- Helper: first failure branch of `validate_age_breakdowns` (RAPE
pendency sum mismatch). -/
theorem vab_err1 (pr pp dr dp u1 v1 u2 v2 u3 v3 u4 v4 x1 y1 x2 y2 x3 y3 : ℚ)
    (h1 : flAdd (flAdd (flAdd u1 u2) u3) u4 ≠ pr) :
    validate_age_breakdowns pr pp dr dp u1 v1 u2 v2 u3 v3 u4 v4 x1 y1 x2 y2 x3 y3 =
      Except.error (VErr.sumMismatch "RAPE pendency" (flAdd (flAdd (flAdd u1 u2) u3) u4) pr) := by
  simp only [validate_age_breakdowns]
  rw [if_pos h1]

/-- Helper: second failure branch of `validate_age_breakdowns` (POCSO
pendency sum mismatch). -/
theorem vab_err2 (pr pp dr dp u1 v1 u2 v2 u3 v3 u4 v4 x1 y1 x2 y2 x3 y3 : ℚ)
    (h1 : flAdd (flAdd (flAdd u1 u2) u3) u4 = pr) (h2 : flAdd (flAdd (flAdd v1 v2) v3) v4 ≠ pp) :
    validate_age_breakdowns pr pp dr dp u1 v1 u2 v2 u3 v3 u4 v4 x1 y1 x2 y2 x3 y3 =
      Except.error (VErr.sumMismatch "POCSO pendency" (flAdd (flAdd (flAdd v1 v2) v3) v4) pp) := by
  simp only [validate_age_breakdowns]
  rw [if_neg (not_ne_iff.mpr h1), if_pos h2]

/-- Helper: third failure branch of `validate_age_breakdowns` (RAPE
disposal sum mismatch). -/
theorem vab_err3 (pr pp dr dp u1 v1 u2 v2 u3 v3 u4 v4 x1 y1 x2 y2 x3 y3 : ℚ)
    (h1 : flAdd (flAdd (flAdd u1 u2) u3) u4 = pr) (h2 : flAdd (flAdd (flAdd v1 v2) v3) v4 = pp)
    (h3 : flAdd (flAdd x1 x2) x3 ≠ dr) :
    validate_age_breakdowns pr pp dr dp u1 v1 u2 v2 u3 v3 u4 v4 x1 y1 x2 y2 x3 y3 =
      Except.error (VErr.sumMismatch "RAPE disposal" (flAdd (flAdd x1 x2) x3) dr) := by
  simp only [validate_age_breakdowns]
  rw [if_neg (not_ne_iff.mpr h1), if_neg (not_ne_iff.mpr h2), if_pos h3]

/-- Helper: fourth failure branch of `validate_age_breakdowns` (POCSO
disposal sum mismatch). -/
theorem vab_err4 (pr pp dr dp u1 v1 u2 v2 u3 v3 u4 v4 x1 y1 x2 y2 x3 y3 : ℚ)
    (h1 : flAdd (flAdd (flAdd u1 u2) u3) u4 = pr) (h2 : flAdd (flAdd (flAdd v1 v2) v3) v4 = pp)
    (h3 : flAdd (flAdd x1 x2) x3 = dr) (h4 : flAdd (flAdd y1 y2) y3 ≠ dp) :
    validate_age_breakdowns pr pp dr dp u1 v1 u2 v2 u3 v3 u4 v4 x1 y1 x2 y2 x3 y3 =
      Except.error (VErr.sumMismatch "POCSO disposal" (flAdd (flAdd y1 y2) y3) dp) := by
  simp only [validate_age_breakdowns]
  rw [if_neg (not_ne_iff.mpr h1), if_neg (not_ne_iff.mpr h2),
    if_neg (not_ne_iff.mpr h3), if_pos h4]

unseal Rat.add Rat.mul Rat.inv Rat.sub in
/-- C2 counterexample against exact-sum success: with the stored pending
value 0.6000000000000001 (the double computed by step 1 from 0.4 + 0.2)
and RAPE pendency buckets (0.1, 0.2, 0.3, 0), the program succeeds — its
left-associated double sum of the buckets equals the stored value — even
though the exact rational sum of those doubles differs from it, so
success is not equivalent to the buckets summing exactly to the given
value. -/
theorem age_breakdown_exact_sum_cex :
    validate_age_breakdowns
        (flAdd (roundNearestEven (2 / 5)) (roundNearestEven (1 / 5))) 0 0 0
        (roundNearestEven (1 / 10)) 0 (roundNearestEven (1 / 5)) 0
        (roundNearestEven (3 / 10)) 0 0 0 0 0 0 0 0 0 =
      Except.ok ⟨roundNearestEven (1 / 10), 0, roundNearestEven (1 / 5), 0,
        roundNearestEven (3 / 10), 0, 0, 0,
        flAdd (roundNearestEven (2 / 5)) (roundNearestEven (1 / 5)), 0,
        0, 0, 0, 0, 0, 0, 0, 0⟩ ∧
    roundNearestEven (1 / 10) + roundNearestEven (1 / 5) + roundNearestEven (3 / 10) + 0 ≠
      flAdd (roundNearestEven (2 / 5)) (roundNearestEven (1 / 5)) := by
  refine ⟨by decide, by decide⟩

/-- C2 (amended): `validate_age_breakdowns` succeeds iff, for each
category, the left-associated binary64 sum of the four pendency buckets
equals the given pending value and that of the three disposal buckets
equals the given disposed value (double sums as the program computes
them, not exact rational sums); on success the returned per-category
totals equal those values; on any mismatch it fails with a `sumMismatch`
naming the category and carrying both sides of the failed equality.
Argument naming: u/v are the RAPE/POCSO pendency buckets, x/y the
RAPE/POCSO disposal buckets. -/
theorem age_breakdown_spec (pr pp dr dp u1 v1 u2 v2 u3 v3 u4 v4 x1 y1 x2 y2 x3 y3 : ℚ) :
    ((∃ r, validate_age_breakdowns pr pp dr dp u1 v1 u2 v2 u3 v3 u4 v4 x1 y1 x2 y2 x3 y3 =
        Except.ok r) ↔
      (flAdd (flAdd (flAdd u1 u2) u3) u4 = pr ∧ flAdd (flAdd (flAdd v1 v2) v3) v4 = pp ∧
       flAdd (flAdd x1 x2) x3 = dr ∧ flAdd (flAdd y1 y2) y3 = dp)) ∧
    (∀ r, validate_age_breakdowns pr pp dr dp u1 v1 u2 v2 u3 v3 u4 v4 x1 y1 x2 y2 x3 y3 =
        Except.ok r →
      r.total_pendency_rape = pr ∧ r.total_pendency_pocso = pp ∧
      r.total_disposal_rape = dr ∧ r.total_disposal_pocso = dp) ∧
    (¬ (flAdd (flAdd (flAdd u1 u2) u3) u4 = pr ∧ flAdd (flAdd (flAdd v1 v2) v3) v4 = pp ∧
        flAdd (flAdd x1 x2) x3 = dr ∧ flAdd (flAdd y1 y2) y3 = dp) →
      ∃ lbl s t,
        validate_age_breakdowns pr pp dr dp u1 v1 u2 v2 u3 v3 u4 v4 x1 y1 x2 y2 x3 y3 =
          Except.error (VErr.sumMismatch lbl s t) ∧ s ≠ t ∧
        ((lbl = "RAPE pendency" ∧ s = flAdd (flAdd (flAdd u1 u2) u3) u4 ∧ t = pr) ∨
         (lbl = "POCSO pendency" ∧ s = flAdd (flAdd (flAdd v1 v2) v3) v4 ∧ t = pp) ∨
         (lbl = "RAPE disposal" ∧ s = flAdd (flAdd x1 x2) x3 ∧ t = dr) ∨
         (lbl = "POCSO disposal" ∧ s = flAdd (flAdd y1 y2) y3 ∧ t = dp))) := by
  by_cases h1 : flAdd (flAdd (flAdd u1 u2) u3) u4 = pr
  · by_cases h2 : flAdd (flAdd (flAdd v1 v2) v3) v4 = pp
    · by_cases h3 : flAdd (flAdd x1 x2) x3 = dr
      · by_cases h4 : flAdd (flAdd y1 y2) y3 = dp
        · refine ⟨iff_of_true ⟨_, vab_ok pr pp dr dp u1 v1 u2 v2 u3 v3 u4 v4 x1 y1 x2 y2 x3 y3 h1 h2 h3 h4⟩ ⟨h1, h2, h3, h4⟩, ?_, ?_⟩
          · intro r hr
            rw [vab_ok pr pp dr dp u1 v1 u2 v2 u3 v3 u4 v4 x1 y1 x2 y2 x3 y3 h1 h2 h3 h4] at hr
            injection hr with h
            subst h
            exact ⟨h1, h2, h3, h4⟩
          · intro hbad
            exact absurd ⟨h1, h2, h3, h4⟩ hbad
        · have he := vab_err4 pr pp dr dp u1 v1 u2 v2 u3 v3 u4 v4 x1 y1 x2 y2 x3 y3 h1 h2 h3 h4
          refine ⟨iff_of_false ?_ ?_, ?_, ?_⟩
          · rintro ⟨r, hr⟩
            rw [he] at hr
            exact Except.noConfusion hr
          · rintro ⟨-, -, -, hd⟩
            exact h4 hd
          · intro r hr
            rw [he] at hr
            exact Except.noConfusion hr
          · exact fun _ => ⟨_, _, _, he, h4, Or.inr (Or.inr (Or.inr ⟨rfl, rfl, rfl⟩))⟩
      · have he := vab_err3 pr pp dr dp u1 v1 u2 v2 u3 v3 u4 v4 x1 y1 x2 y2 x3 y3 h1 h2 h3
        refine ⟨iff_of_false ?_ ?_, ?_, ?_⟩
        · rintro ⟨r, hr⟩
          rw [he] at hr
          exact Except.noConfusion hr
        · rintro ⟨-, -, hd, -⟩
          exact h3 hd
        · intro r hr
          rw [he] at hr
          exact Except.noConfusion hr
        · exact fun _ => ⟨_, _, _, he, h3, Or.inr (Or.inr (Or.inl ⟨rfl, rfl, rfl⟩))⟩
    · have he := vab_err2 pr pp dr dp u1 v1 u2 v2 u3 v3 u4 v4 x1 y1 x2 y2 x3 y3 h1 h2
      refine ⟨iff_of_false ?_ ?_, ?_, ?_⟩
      · rintro ⟨r, hr⟩
        rw [he] at hr
        exact Except.noConfusion hr
      · rintro ⟨-, hd, -, -⟩
        exact h2 hd
      · intro r hr
        rw [he] at hr
        exact Except.noConfusion hr
      · exact fun _ => ⟨_, _, _, he, h2, Or.inr (Or.inl ⟨rfl, rfl, rfl⟩)⟩
  · have he := vab_err1 pr pp dr dp u1 v1 u2 v2 u3 v3 u4 v4 x1 y1 x2 y2 x3 y3 h1
    refine ⟨iff_of_false ?_ ?_, ?_, ?_⟩
    · rintro ⟨r, hr⟩
      rw [he] at hr
      exact Except.noConfusion hr
    · rintro ⟨hd, -, -, -⟩
      exact h1 hd
    · intro r hr
      rw [he] at hr
      exact Except.noConfusion hr
    · exact fun _ => ⟨_, _, _, he, h1, Or.inl ⟨rfl, rfl, rfl⟩⟩

unseal Rat.add Rat.mul Rat.inv Rat.sub in
/-- Closed instance of `age_breakdown_spec`: at small integer inputs
(where double sums are exact) matching bucket sums succeed and a single
+1 perturbation of the pending target fails. -/
theorem age_breakdown_spec_witness :
    (∃ r, validate_age_breakdowns 10 7 3 2 1 2 2 4 3 1 4 0 1 1 1 0 1 1 = Except.ok r) ∧
    ¬ (∃ r, validate_age_breakdowns 11 7 3 2 1 2 2 4 3 1 4 0 1 1 1 0 1 1 = Except.ok r) :=
  ⟨(age_breakdown_spec 10 7 3 2 1 2 2 4 3 1 4 0 1 1 1 0 1 1).1.mpr (by decide),
   fun h => by
    have hs := (age_breakdown_spec 11 7 3 2 1 2 2 4 3 1 4 0 1 1 1 0 1 1).1.mp h
    exact absurd hs.1 (by decide)⟩

/-- Helper: success branch of `validate_additional_metrics` when all six
subset constraints hold. -/
theorem vam_ok (pr pp dr dp cr cp f5r f5p o5r o5p kr kp : ℚ)
    (h1 : cr ≤ dr) (h2 : cp ≤ dp) (h3 : f5r ≤ dr) (h4 : f5p ≤ dp)
    (h5 : o5r ≤ pr) (h6 : o5p ≤ pp) :
    validate_additional_metrics pr pp dr dp cr cp f5r f5p o5r o5p kr kp =
      Except.ok ⟨cr, cp, cr + cp, f5r, f5p, f5r + f5p, o5r, o5p, o5r + o5p, kr, kp⟩ := by
  simp only [validate_additional_metrics]
  rw [if_neg (not_lt.mpr h1), if_neg (not_lt.mpr h2), if_neg (not_lt.mpr h3),
    if_neg (not_lt.mpr h4), if_neg (not_lt.mpr h5), if_neg (not_lt.mpr h6)]

/-- C4: with the court resolved, invoking step 2 when no entry exists for
the key or its `step1_complete` flag is unset fails with a step-order
violation naming step 1, and invoking step 3 when no entry exists
(respectively when `step2_complete` is unset) fails with a step-order
violation naming step 1 (respectively step 2). -/
theorem step_order_enforced (courts : String → Option Court) (w : WorldState)
    (name : String) (month year : Int) (c : Court)
    (u1 v1 u2 v2 u3 v3 u4 v4 x1 y1 x2 y2 x3 y3 : ℚ)
    (cr cp f5r f5p o5r o5p kr kp : ℚ) (insertFails : Bool)
    (hc : courts name = some c) :
    ((w.store ⟨c.id, month, year⟩ = none ∨
        ∃ pd, w.store ⟨c.id, month, year⟩ = some pd ∧ pd.step1_complete = false) →
      (insert_step2_age_breakdowns courts w name month year
        u1 v1 u2 v2 u3 v3 u4 v4 x1 y1 x2 y2 x3 y3).2 = StepResult.stepOrderViolation 1) ∧
    (w.store ⟨c.id, month, year⟩ = none →
      (insert_step3_additional_metrics courts insertFails w name month year
        cr cp f5r f5p o5r o5p kr kp).2 = StepResult.stepOrderViolation 1) ∧
    (∀ pd, w.store ⟨c.id, month, year⟩ = some pd → pd.step2_complete = false →
      (insert_step3_additional_metrics courts insertFails w name month year
        cr cp f5r f5p o5r o5p kr kp).2 = StepResult.stepOrderViolation 2) := by
  refine ⟨?_, ?_, ?_⟩
  · rintro (hnone | ⟨pd, hpd, hflag⟩)
    · simp [insert_step2_age_breakdowns, hc, hnone]
    · simp [insert_step2_age_breakdowns, hc, hpd, hflag]
  · intro hnone
    simp [insert_step3_additional_metrics, hc, hnone]
  · intro pd hpd hflag
    simp [insert_step3_additional_metrics, hc, hpd, hflag]

/-- Closed instance of `step_order_enforced` on the empty store. -/
theorem step_order_enforced_witness :
    (insert_step2_age_breakdowns exCourts exWorldEmpty "FTSC Attingal" 1 2025
      0 0 0 0 0 0 0 0 0 0 0 0 0 0).2 = StepResult.stepOrderViolation 1 ∧
    (insert_step3_additional_metrics exCourts false exWorldEmpty "FTSC Attingal" 1 2025
      0 0 0 0 0 0 0 0).2 = StepResult.stepOrderViolation 1 :=
  ⟨(step_order_enforced exCourts exWorldEmpty "FTSC Attingal" 1 2025 exCourt
      0 0 0 0 0 0 0 0 0 0 0 0 0 0 0 0 0 0 0 0 0 0 false rfl).1 (Or.inl rfl),
   (step_order_enforced exCourts exWorldEmpty "FTSC Attingal" 1 2025 exCourt
      0 0 0 0 0 0 0 0 0 0 0 0 0 0 0 0 0 0 0 0 0 0 false rfl).2.1 rfl⟩

/-- C5: whenever a step fails through the arithmetic validator or the
step-order check, the step leaves the world (the in-memory store and the
set of committed records, so in particular no durable insert) exactly as
it was before the call. -/
theorem failed_step_no_mutation (courts : String → Option Court) (w : WorldState)
    (name : String) (month year : Int)
    (br bp nr np dr0 dp0 : ℚ)
    (u1 v1 u2 v2 u3 v3 u4 v4 x1 y1 x2 y2 x3 y3 : ℚ)
    (cr cp f5r f5p o5r o5p kr kp : ℚ) (insertFails : Bool) :
    ((insert_step1_basic_metrics courts w name month year
        br bp nr np dr0 dp0).2.isValidatorOrOrderFailure = true →
      (insert_step1_basic_metrics courts w name month year
        br bp nr np dr0 dp0).1 = w) ∧
    ((insert_step2_age_breakdowns courts w name month year
        u1 v1 u2 v2 u3 v3 u4 v4 x1 y1 x2 y2 x3 y3).2.isValidatorOrOrderFailure = true →
      (insert_step2_age_breakdowns courts w name month year
        u1 v1 u2 v2 u3 v3 u4 v4 x1 y1 x2 y2 x3 y3).1 = w) ∧
    ((insert_step3_additional_metrics courts insertFails w name month year
        cr cp f5r f5p o5r o5p kr kp).2.isValidatorOrOrderFailure = true →
      (insert_step3_additional_metrics courts insertFails w name month year
        cr cp f5r f5p o5r o5p kr kp).1 = w) := by
  refine ⟨?_, ?_, ?_⟩
  · unfold insert_step1_basic_metrics
    dsimp only
    repeat' split
    all_goals simp [StepResult.isValidatorOrOrderFailure]
  · unfold insert_step2_age_breakdowns
    dsimp only
    repeat' split
    all_goals simp [StepResult.isValidatorOrOrderFailure]
  · unfold insert_step3_additional_metrics
    dsimp only
    repeat' split
    all_goals simp [StepResult.isValidatorOrOrderFailure]

/-- Closed instance of `failed_step_no_mutation`: step 2 with no prior
step 1 leaves the empty world untouched. -/
theorem failed_step_no_mutation_witness :
    (insert_step2_age_breakdowns exCourts exWorldEmpty "FTSC Attingal" 1 2025
      0 0 0 0 0 0 0 0 0 0 0 0 0 0).1 = exWorldEmpty :=
  (failed_step_no_mutation exCourts exWorldEmpty "FTSC Attingal" 1 2025
    0 0 0 0 0 0 0 0 0 0 0 0 0 0 0 0 0 0 0 0 0 0 0 0 0 0 0 0 false).2.1 (by decide)

/-- Helper: every error of `validate_age_breakdowns` is a `sumMismatch`. -/
theorem vab_error_shape (pr pp dr dp u1 v1 u2 v2 u3 v3 u4 v4 x1 y1 x2 y2 x3 y3 : ℚ)
    (e : VErr)
    (h : validate_age_breakdowns pr pp dr dp u1 v1 u2 v2 u3 v3 u4 v4 x1 y1 x2 y2 x3 y3 =
      Except.error e) :
    ∃ lbl s t, e = VErr.sumMismatch lbl s t := by
  simp only [validate_age_breakdowns] at h
  split_ifs at h <;>
    first
      | (injection h with h
         exact ⟨_, _, _, h.symm⟩)
      | exact Except.noConfusion h

/-- Helper: every error of `validate_additional_metrics` is a
`subsetViolation`. -/
theorem vam_error_shape (pr pp dr dp cr cp f5r f5p o5r o5p kr kp : ℚ) (e : VErr)
    (h : validate_additional_metrics pr pp dr dp cr cp f5r f5p o5r o5p kr kp =
      Except.error e) :
    ∃ f v b, e = VErr.subsetViolation f v b := by
  simp only [validate_additional_metrics] at h
  split_ifs at h <;>
    first
      | (injection h with h
         exact ⟨_, _, _, h.symm⟩)
      | exact Except.noConfusion h

/-- C6: at the final commit point of step 3 (court resolved, fully
advanced entry present, additional-metrics validation passed), a failing
durable insert returns a storage failure and leaves both the store entry
(with its completion flags) and the committed-record set untouched, so
step 3 can be retried; a succeeding insert returns success, removes the
entry, and marks the record committed — commit and removal happen
together or not at all. -/
theorem final_commit_atomicity (courts : String → Option Court) (w : WorldState)
    (name : String) (month year : Int) (c : Court) (pd : PartialRecord)
    (cr cp f5r f5p o5r o5p kr kp : ℚ) (additional : AdditionalMetrics)
    (insertFails : Bool)
    (hc : courts name = some c)
    (hpd : w.store ⟨c.id, month, year⟩ = some pd)
    (hs1 : pd.step1_complete = true)
    (hs2 : pd.step2_complete = true)
    (hv : validate_additional_metrics pd.basic.pending_rape pd.basic.pending_pocso
        pd.basic.disposed_rape pd.basic.disposed_pocso cr cp f5r f5p o5r o5p kr kp =
      Except.ok additional) :
    (insertFails = true →
      (insert_step3_additional_metrics courts insertFails w name month year
        cr cp f5r f5p o5r o5p kr kp).2 = StepResult.storageFailure ∧
      (insert_step3_additional_metrics courts insertFails w name month year
        cr cp f5r f5p o5r o5p kr kp).1 = w ∧
      (insert_step3_additional_metrics courts insertFails w name month year
        cr cp f5r f5p o5r o5p kr kp).1.store ⟨c.id, month, year⟩ = some pd) ∧
    (insertFails = false →
      (insert_step3_additional_metrics courts insertFails w name month year
        cr cp f5r f5p o5r o5p kr kp).2 = StepResult.ok3 pd additional ∧
      (insert_step3_additional_metrics courts insertFails w name month year
        cr cp f5r f5p o5r o5p kr kp).1.store ⟨c.id, month, year⟩ = none ∧
      (insert_step3_additional_metrics courts insertFails w name month year
        cr cp f5r f5p o5r o5p kr kp).1.records ⟨c.id, month, year⟩ = true) := by
  constructor
  · rintro rfl
    refine ⟨?_, ?_, ?_⟩ <;>
      simp [insert_step3_additional_metrics, hc, hpd, hs2, hv]
  · rintro rfl
    refine ⟨?_, ?_, ?_⟩ <;>
      simp [insert_step3_additional_metrics, hc, hpd, hs2, hv]

/-- Closed instance of `final_commit_atomicity` on the ready fixture
world, exercising both the failing-insert and succeeding-insert cases. -/
theorem final_commit_atomicity_witness :
    ((insert_step3_additional_metrics exCourts true exWorldReady "FTSC Attingal" 1 2025
        0 0 0 0 0 0 0 0).2 = StepResult.storageFailure ∧
     (insert_step3_additional_metrics exCourts true exWorldReady "FTSC Attingal" 1 2025
        0 0 0 0 0 0 0 0).1 = exWorldReady ∧
     (insert_step3_additional_metrics exCourts true exWorldReady "FTSC Attingal" 1 2025
        0 0 0 0 0 0 0 0).1.store ⟨exCourt.id, 1, 2025⟩ = some exEntry) ∧
    ((insert_step3_additional_metrics exCourts false exWorldReady "FTSC Attingal" 1 2025
        0 0 0 0 0 0 0 0).2 = StepResult.ok3 exEntry zeroAdditional ∧
     (insert_step3_additional_metrics exCourts false exWorldReady "FTSC Attingal" 1 2025
        0 0 0 0 0 0 0 0).1.store ⟨exCourt.id, 1, 2025⟩ = none ∧
     (insert_step3_additional_metrics exCourts false exWorldReady "FTSC Attingal" 1 2025
        0 0 0 0 0 0 0 0).1.records ⟨exCourt.id, 1, 2025⟩ = true) :=
  ⟨(final_commit_atomicity exCourts exWorldReady "FTSC Attingal" 1 2025 exCourt exEntry
      0 0 0 0 0 0 0 0 zeroAdditional true rfl (by decide) rfl rfl (by
        show validate_additional_metrics 0 0 0 0 0 0 0 0 0 0 0 0 =
          Except.ok zeroAdditional
        rw [vam_ok 0 0 0 0 0 0 0 0 0 0 0 0 le_rfl le_rfl le_rfl le_rfl le_rfl le_rfl]
        norm_num [zeroAdditional])).1 rfl,
   (final_commit_atomicity exCourts exWorldReady "FTSC Attingal" 1 2025 exCourt exEntry
      0 0 0 0 0 0 0 0 zeroAdditional false rfl (by decide) rfl rfl (by
        show validate_additional_metrics 0 0 0 0 0 0 0 0 0 0 0 0 =
          Except.ok zeroAdditional
        rw [vam_ok 0 0 0 0 0 0 0 0 0 0 0 0 le_rfl le_rfl le_rfl le_rfl le_rfl le_rfl]
        norm_num [zeroAdditional])).2 rfl⟩

/-- C7 counterexample: in a world in which the key has both a committed
record and a leftover in-memory entry (reachable when a concurrent
workflow commits between the duplicate check and the store write of
another caller), step 1 fails with `duplicateEntry` yet a Partial Record for that
key is still present afterwards — refuting the claim that no Partial
Record for the key remains for every prior state of the store. -/
theorem step1_duplicate_cex :
    (insert_step1_basic_metrics exCourts exWorldDup "FTSC Attingal" 1 2025
      0 0 0 0 0 0).2 = StepResult.duplicateEntry ∧
    (insert_step1_basic_metrics exCourts exWorldDup "FTSC Attingal" 1 2025
      0 0 0 0 0 0).1.store exKey = some exEntry := by
  constructor <;> decide

/-- C7 (amended): with a valid period and the court resolved, step 1 on a
key whose committed record already exists fails with `duplicateEntry` and
leaves the Partial Record store exactly unchanged — in particular it
creates no Partial Record (an entry already present for the key from a
concurrent workflow remains). -/
theorem step1_duplicate_no_new_entry (courts : String → Option Court) (w : WorldState)
    (name : String) (month year : Int) (c : Court)
    (br bp nr np dr0 dp0 : ℚ)
    (hm : validate_month_year month year = Except.ok ())
    (hc : courts name = some c)
    (he : w.records ⟨c.id, month, year⟩ = true) :
    (insert_step1_basic_metrics courts w name month year
      br bp nr np dr0 dp0).2 = StepResult.duplicateEntry ∧
    (insert_step1_basic_metrics courts w name month year
      br bp nr np dr0 dp0).1 = w := by
  constructor <;> simp [insert_step1_basic_metrics, hm, hc, he]

/-- Closed instance of `step1_duplicate_no_new_entry` on the fixture
world with a committed record. -/
theorem step1_duplicate_no_new_entry_witness :
    (insert_step1_basic_metrics exCourts exWorldDup "FTSC Attingal" 1 2025
      1 1 1 1 1 1).2 = StepResult.duplicateEntry ∧
    (insert_step1_basic_metrics exCourts exWorldDup "FTSC Attingal" 1 2025
      1 1 1 1 1 1).1 = exWorldDup :=
  step1_duplicate_no_new_entry exCourts exWorldDup "FTSC Attingal" 1 2025 exCourt
    1 1 1 1 1 1 (by rfl) rfl (by decide)

/-- C10: period bounds are enforced only by step 1 — steps 2 and 3 never
produce a `RangeError`-class failure for any input (they do not invoke
`validate_month_year`), and for an out-of-range key absent from the store
they fail with a step-order violation instead. -/
theorem steps_2_3_no_range_check (courts : String → Option Court) (w : WorldState)
    (name : String) (month year : Int) (c : Court)
    (u1 v1 u2 v2 u3 v3 u4 v4 x1 y1 x2 y2 x3 y3 : ℚ)
    (cr cp f5r f5p o5r o5p kr kp : ℚ) (insertFails : Bool) :
    (insert_step2_age_breakdowns courts w name month year
      u1 v1 u2 v2 u3 v3 u4 v4 x1 y1 x2 y2 x3 y3).2.isRangeError = false ∧
    (insert_step3_additional_metrics courts insertFails w name month year
      cr cp f5r f5p o5r o5p kr kp).2.isRangeError = false ∧
    (courts name = some c → w.store ⟨c.id, month, year⟩ = none →
      (insert_step2_age_breakdowns courts w name month year
        u1 v1 u2 v2 u3 v3 u4 v4 x1 y1 x2 y2 x3 y3).2 = StepResult.stepOrderViolation 1 ∧
      (insert_step3_additional_metrics courts insertFails w name month year
        cr cp f5r f5p o5r o5p kr kp).2 = StepResult.stepOrderViolation 1) := by
  refine ⟨?_, ?_, ?_⟩
  · unfold insert_step2_age_breakdowns
    dsimp only
    repeat' split
    all_goals try rfl
    rename_i e heq
    obtain ⟨lbl, s, t, rfl⟩ :=
      vab_error_shape _ _ _ _ _ _ _ _ _ _ _ _ _ _ _ _ _ _ e heq
    rfl
  · unfold insert_step3_additional_metrics
    dsimp only
    repeat' split
    all_goals try rfl
    rename_i e heq
    obtain ⟨f, v, b, rfl⟩ := vam_error_shape _ _ _ _ _ _ _ _ _ _ _ _ e heq
    rfl
  · intro hc hnone
    constructor
    · simp [insert_step2_age_breakdowns, hc, hnone]
    · simp [insert_step3_additional_metrics, hc, hnone]

/-- Closed instance of `steps_2_3_no_range_check` at the out-of-range
month 13: both steps fail with a step-order violation, not a range
error. -/
theorem steps_2_3_no_range_check_witness :
    (insert_step2_age_breakdowns exCourts exWorldEmpty "FTSC Attingal" 13 2025
      1 1 1 1 1 1 1 1 1 1 1 1 1 1).2 = StepResult.stepOrderViolation 1 ∧
    (insert_step3_additional_metrics exCourts false exWorldEmpty "FTSC Attingal" 13 2025
      1 1 1 1 1 1 1 1).2 = StepResult.stepOrderViolation 1 :=
  (steps_2_3_no_range_check exCourts exWorldEmpty "FTSC Attingal" 13 2025 exCourt
    1 1 1 1 1 1 1 1 1 1 1 1 1 1 1 1 1 1 1 1 1 1 false).2.2 rfl rfl

end CourtData
